import Mathlib

/-!
Verification of the ssh-web session bridge against its specification.

The development shallow-embeds the TypeScript source:
* `src/lib/ssh-session-store.ts` (session record store: save/validate/migrate/
  cleanup/naming helpers),
* `src/lib/ssh-server.ts` (`initializeLocalPty`, attach-or-create decision),
* `src/lib/ssh-remote.ts` (`SshRemoteConnection.connect` credential selection),
* `src/components/SshTerminalTab.tsx` (client reconnection controller),
* `src/components/SshTabManager.tsx` (`handleTabClose`).

JavaScript-specific behaviour is modelled explicitly: optional / possibly
missing fields become `Option`, the truthiness tests that the code performs on
strings (`if (!session.id)`, `store.version || 0` …) become explicit helper
functions, and interactions with the outside world (tmux liveness, the
filesystem, `Date` parsing, `Math.random` identifiers) become parameters of the
embedded functions.
-/

namespace SshWeb

/-- Connection kind, `ConnectionType = 'local' | 'remote'` in `types/ssh`.
(`local` is a Lean keyword, hence the `Kind` suffix.) -/
inductive ConnectionType
  | localKind
  | remoteKind
deriving DecidableEq, Repr

/-- Model of `RemoteConnectionInfo` from `types/ssh`: host, port, username, the declared
authentication method and the (optional) credential fields.  `authMethod` is a
plain string because the value arrives from a JSON message. -/
structure RemoteConnectionInfo where
  host : String
  port : Nat
  username : String
  authMethod : String
  password : Option String
  privateKey : Option String
  passphrase : Option String
deriving DecidableEq, Repr

/-- Model of `SshSession` from `types/ssh`.  Every field is `Option` because the records
are deserialised from `localStorage` JSON and may be missing fields; the store
code guards each access with a truthiness test. -/
structure SshSession where
  id : Option String
  name : Option String
  tmuxSessionId : Option String
  createdAt : Option String
  lastAccessedAt : Option String
  isActive : Option Bool
  connectionType : Option ConnectionType
  remoteInfo : Option RemoteConnectionInfo
deriving DecidableEq, Repr

/-- Model of `SshSessionStore`: the versioned persisted registry.  `sessions = none`
models a raw value whose `sessions` field is not an array (the code checks
`Array.isArray`); `version = none` models a missing `version` field. -/
structure SshSessionStore where
  version : Option Int
  activeSessionId : Option String
  sessions : Option (List SshSession)
deriving DecidableEq, Repr

/-- JavaScript truthiness of an optional string: `undefined`, `null` and the
empty string are falsy, every other string is truthy. -/
def jsTruthyStr : Option String → Bool
  | none => false
  | some s => !s.isEmpty

/-- JavaScript `x || d` for the optional integer `version` field:
missing and `0` are falsy. -/
def jsOrInt : Option Int → Int → Int
  | none, d => d
  | some v, d => if v == 0 then d else v

/-- JavaScript `x || null` for an optional string (used for
`store.activeSessionId || null`): the empty string collapses to `null`. -/
def jsOrNullStr : Option String → Option String
  | none => none
  | some s => if s.isEmpty then none else some s

/-- Constant `CURRENT_VERSION` in `ssh-session-store.ts`. -/
def CURRENT_VERSION : Int := 1

/-- Constant `MAX_TABS` in `ssh-session-store.ts`. -/
def MAX_TABS : Nat := 5

/-! ## saveSessionStore (sanitisation step)

`saveSessionStore` builds a "sanitized" copy of the store before serialising:

```ts
sessions: store.sessions.map(session => {
  if (session.remoteInfo) {
    const { ...sanitizedRemoteInfo } = session.remoteInfo;
    return { ...session, remoteInfo: sanitizedRemoteInfo };
  }
  return session;
})
```

The destructuring pattern `const { ...sanitizedRemoteInfo } = session.remoteInfo`
names no field before the rest element, so the rest element receives *every*
own property of `session.remoteInfo`, `password` and `passphrase` included.
`restRemoteInfo` spells out that field-by-field copy. -/

/-- The rest-destructuring copy `const { ...sanitizedRemoteInfo } = ri`:
a copy of every field of `ri` (no field is named in the pattern, so none is
excluded from the rest element). -/
def restRemoteInfo (ri : RemoteConnectionInfo) : RemoteConnectionInfo :=
  { host := ri.host
    port := ri.port
    username := ri.username
    authMethod := ri.authMethod
    password := ri.password
    privateKey := ri.privateKey
    passphrase := ri.passphrase }

/-- The per-session sanitisation step of `saveSessionStore`. -/
def sanitizeSession (s : SshSession) : SshSession :=
  match s.remoteInfo with
  | some ri => { s with remoteInfo := some (restRemoteInfo ri) }
  | none => s

/-- The value `saveSessionStore` actually serialises (the `sanitizedStore`
local).  The quota-exceeded retry path is not modelled; this is the value of
the first `JSON.stringify`. -/
def sanitizeStore (store : SshSessionStore) : SshSessionStore :=
  { store with sessions := store.sessions.map (fun l => l.map sanitizeSession) }

/-- A store "contains a secret" when some record still carries a `password`
or `passphrase` field inside `remoteInfo`. -/
def storeHasSecret (store : SshSessionStore) : Bool :=
  (store.sessions.getD []).any fun s =>
    match s.remoteInfo with
    | some ri => ri.password.isSome || ri.passphrase.isSome
    | none => false

/-! ## createSession -/

/-- Model of `createSession(name, connectionType, remoteInfo)`.  The generated
identifier and the current timestamp come from the environment
(`Math.random`, `new Date`), so they are parameters `freshId` and `now`. -/
def createSession (name : String) (connectionType : ConnectionType)
    (remoteInfo : Option RemoteConnectionInfo) (freshId now : String) :
    SshSession :=
  { id := some freshId
    name := some name
    tmuxSessionId := some freshId
    createdAt := some now
    lastAccessedAt := some now
    isActive := some false
    connectionType := some connectionType
    remoteInfo := remoteInfo }

/-! ## cleanupOldSessions

```ts
return sessions.filter(session => {
  try {
    const lastAccessed = new Date(session.lastAccessedAt).getTime();
    const age = now - lastAccessed;
    if (age > maxAgeMs) { ...; return false; }
    return true;
  } catch (error) { ...; return true; }
});
```

`new Date(bad).getTime()` yields `NaN` rather than throwing; `NaN > maxAgeMs`
is false, so an unparseable timestamp is kept — the same outcome as the
`catch` arm.  `parseDate` models the JavaScript date parser: `none` stands
for an invalid date (`NaN`). -/

/-- Model of `cleanupOldSessions(sessions, maxAgeDays)` with the ambient clock `now`
(milliseconds) and date parser `parseDate` made explicit. -/
def cleanupOldSessions (parseDate : Option String → Option Int) (now : Int)
    (sessions : List SshSession) (maxAgeDays : Int) : List SshSession :=
  let maxAgeMs : Int := maxAgeDays * 24 * 60 * 60 * 1000
  sessions.filter fun s =>
    match parseDate s.lastAccessedAt with
    | none => true
    | some lastAccessed => !(now - lastAccessed > maxAgeMs)

/-! ## migrateSessionStore -/

/-- Spread copy `{ ...s, connectionType: s.connectionType || 'local' }` — the default
applied by both `migrateSessionStore` and `validateSessionStore`.  The TS
`connectionType` union has no falsy member, so only a missing field is
defaulted. -/
def withDefaultConnectionType (s : SshSession) : SshSession :=
  { s with connectionType := match s.connectionType with
      | some ct => some ct
      | none => some ConnectionType.localKind }

/-- Model of `migrateSessionStore(store)`: version 0 is upgraded to the current
version (injecting the `connectionType` default and normalising
`activeSessionId`), the current version is re-normalised in place, and any
other version is passed through unchanged. -/
def migrateSessionStore (store : SshSessionStore) : SshSessionStore :=
  let version := jsOrInt store.version 0
  if version == 0 then
    { version := some CURRENT_VERSION
      activeSessionId := jsOrNullStr store.activeSessionId
      sessions := some ((store.sessions.getD []).map withDefaultConnectionType) }
  else if version == CURRENT_VERSION then
    { store with
      sessions := some ((store.sessions.getD []).map withDefaultConnectionType) }
  else
    store

/-! ## validateSessionStore -/

/-- The record test inside `validateSessionStore`:
`!session.id || !session.name || !session.tmuxSessionId` drops the record. -/
def sessionFieldsValid (s : SshSession) : Bool :=
  jsTruthyStr s.id && jsTruthyStr s.name && jsTruthyStr s.tmuxSessionId

/-- Model of `validateSessionStore(store)`: resets a non-array `sessions` to `[]`,
drops records with a falsy `id`/`name`/`tmuxSessionId` while defaulting
`connectionType` on the survivors (one pass, as in the source filter), and
clears a *truthy* `activeSessionId` that no surviving record carries. -/
def validateSessionStore (store : SshSessionStore) : SshSessionStore :=
  let sessions :=
    (store.sessions.getD []).filterMap fun s =>
      if sessionFieldsValid s then some (withDefaultConnectionType s) else none
  let activeSessionId :=
    if jsTruthyStr store.activeSessionId then
      if sessions.any (fun s => s.id == store.activeSessionId) then
        store.activeSessionId
      else
        none
    else
      store.activeSessionId
  { store with sessions := some sessions, activeSessionId := activeSessionId }

/-! ## getNextTerminalName -/

/-- Value of a non-empty all-digit character run (`parseInt` on the capture
group of `/^<pre> (\d+)$/`); `none` when the run is empty or contains a
non-digit. -/
def parseDigitRun (cs : List Char) : Option Nat :=
  if !cs.isEmpty && cs.all Char.isDigit then
    some (cs.foldl (fun acc c => acc * 10 + (c.toNat - 48)) 0)
  else
    none

/-- The regex match `name.match(/^<pre> (\d+)$/)` followed by `parseInt`:
`some n` when `name` is the literal `pre`, a space, and a non-empty run of
ASCII digits valued `n`; `none` otherwise.  (Characters are handled as lists
so that the definition computes by kernel reduction.) -/
def matchNameNumber (pre name : String) : Option Nat :=
  let pcs := (pre ++ " ").data
  let ncs := name.data
  if pcs.isPrefixOf ncs then parseDigitRun (ncs.drop pcs.length)
  else none

/-- JavaScript `Math.max(...numbers)` over a list of naturals (the call sites guard the
list to be non-empty, and all members are positive). -/
def jsMathMax (numbers : List Nat) : Nat := numbers.foldr max 0

/-- Model of `getNextTerminalName(existingSessions, connectionType)`: keep the sessions
of the requested kind, extract the number of each name matching
`"<pre> <N>"` (non-matching names contribute `0`), drop the zeros, and
return `"<pre> <max+1>"`, or `"<pre> 1"` when nothing is left. -/
def getNextTerminalName (existingSessions : List SshSession)
    (connectionType : ConnectionType) : String :=
  let pre := match connectionType with
    | ConnectionType.localKind => "Terminal"
    | ConnectionType.remoteKind => "Remote"
  let numbers :=
    (((existingSessions.filter
          (fun s => s.connectionType == some connectionType)).map
        (fun s => match matchNameNumber pre (s.name.getD "") with
          | some n => n
          | none => 0)).filter
      (fun n => decide (0 < n)))
  match numbers with
  | [] => pre ++ " 1"
  | _ => pre ++ " " ++ toString (jsMathMax numbers + 1)

/-- Model of `isMaxTabsReached(sessions)`. -/
def isMaxTabsReached (sessions : List SshSession) : Bool :=
  MAX_TABS ≤ sessions.length

/-! ## Server: initializeLocalPty (ssh-server.ts)

The attach-or-create decision:

```ts
if (tmuxAvailable && requestedSessionId && tmuxSessionExists(requestedSessionId)) {
  tmuxSessionId = requestedSessionId; isNewSession = false;   // tmux attach-session
} else {
  tmuxSessionId = requestedSessionId || `ssh-${...}`;          // isNewSession stays true
  // tmux new-session when tmux is available, bare bash otherwise
}
```

The external tmux state is modelled by the list `liveSessions` of names of the
currently live tmux sessions (`tmuxSessionExists` shells out to
`tmux has-session -t <id>`); the freshly generated `ssh-…` identifier is the
parameter `freshId`. -/

/-- Which process `initializeLocalPty` spawns. -/
inductive PtySpawn
  | tmuxAttach
  | tmuxNew
  | bareShell
deriving DecidableEq, Repr

/-- The observable outcome of `initializeLocalPty`: the resolved session id
and `isNewSession` reported in the `session_info` reply, and the spawned
process. -/
structure LocalPtyResult where
  resolvedId : String
  isNew : Bool
  spawned : PtySpawn
deriving DecidableEq, Repr

/-- Model of `tmuxSessionExists(sessionId)` over the modelled tmux state. -/
def tmuxSessionExists (liveSessions : List String) (sessionId : String) :
    Bool :=
  liveSessions.contains sessionId

/-- Model of `initializeLocalPty(requestedSessionId)` with the ambient
`tmuxAvailable` flag, tmux state and generated id made explicit. -/
def initializeLocalPty (tmuxAvailable : Bool) (liveSessions : List String)
    (requestedSessionId : Option String) (freshId : String) : LocalPtyResult :=
  if tmuxAvailable && jsTruthyStr requestedSessionId
      && tmuxSessionExists liveSessions (requestedSessionId.getD "") then
    { resolvedId := requestedSessionId.getD ""
      isNew := false
      spawned := PtySpawn.tmuxAttach }
  else
    { resolvedId :=
        if jsTruthyStr requestedSessionId then requestedSessionId.getD ""
        else freshId
      isNew := true
      spawned := if tmuxAvailable then PtySpawn.tmuxNew else PtySpawn.bareShell }

/-! ## Server: SshRemoteConnection.connect credential selection (ssh-remote.ts)

```ts
if (info.authMethod === 'password' && info.password) {
  config.password = info.password;
} else if (info.authMethod === 'privateKey' && info.privateKey) {
  try {
    config.privateKey = fs.readFileSync(info.privateKey);
    if (info.passphrase) { config.passphrase = info.passphrase; }
  } catch (error) { reject(...); return; }
} else {
  reject(new Error('Invalid authentication method or missing credentials'));
}
```

`readKey` models `fs.readFileSync` on the private-key path (`none` = throw). -/

/-- The authentication material placed into the ssh2 `connect` config. -/
inductive AuthConfig
  | usePassword (pw : String)
  | useKey (keyData : String) (passphrase : Option String)
deriving DecidableEq, Repr

/-- The credential-selection step of `SshRemoteConnection.connect`:
either the chosen `AuthConfig`, or the rejection message. -/
def buildAuthConfig (readKey : String → Option String)
    (info : RemoteConnectionInfo) : Except String AuthConfig :=
  if info.authMethod == "password" && jsTruthyStr info.password then
    Except.ok (AuthConfig.usePassword (info.password.getD ""))
  else if info.authMethod == "privateKey" && jsTruthyStr info.privateKey then
    match readKey (info.privateKey.getD "") with
    | some keyData =>
        Except.ok (AuthConfig.useKey keyData
          (if jsTruthyStr info.passphrase then info.passphrase else none))
    | none => Except.error "Failed to read private key file"
  else
    Except.error "Invalid authentication method or missing credentials"

/-! ## Client: reconnection controller (SshTerminalTab.tsx)

Constants, state and event handlers of the per-tab controller:

```ts
const maxReconnectAttempts = 5;
const reconnectDelay = 2000; // 2 seconds
```

`connectWebSocket` sets `connectionState = 'connecting'`; `websocket.onopen`
sets `'connected'` and `reconnectAttemptsRef.current = 0`; an abrupt close
(code ≠ 1000, not intentional) sets `'disconnected'` and calls
`attemptReconnect`, which either gives up (`'error'`) when the counter has
reached the bound or increments the counter, sets `'reconnecting'` and arms a
`setTimeout(connectWebSocket, reconnectDelay)`.  `scheduledDelays` records the
delay of every reconnect timer armed so far. -/

/-- Client `ConnectionState` of the tab component. -/
inductive ConnState
  | disconnected
  | connecting
  | connected
  | reconnecting
  | errorState
deriving DecidableEq, Repr

/-- Constant `maxReconnectAttempts` (SshTerminalTab.tsx line 36). -/
def maxReconnectAttempts : Nat := 5

/-- Constant `reconnectDelay` in milliseconds (SshTerminalTab.tsx line 37). -/
def reconnectDelay : Nat := 2000

/-- The controller state: `connectionState`, `reconnectAttemptsRef`, the log
of armed reconnect-timer delays, and the locally remembered
`tmuxSessionId` (`sessionIdRef`). -/
structure TabConn where
  connectionState : ConnState
  reconnectAttempts : Nat
  scheduledDelays : List Nat
  tmuxSessionId : Option String
deriving DecidableEq, Repr

/-- Controller state before the first connection attempt. -/
def initialTabConn (sid : Option String) : TabConn :=
  { connectionState := ConnState.disconnected
    reconnectAttempts := 0
    scheduledDelays := []
    tmuxSessionId := sid }

/-- Model of `connectWebSocket` (the part visible to the state machine):
`setConnectionState('connecting')`. -/
def connectStart (st : TabConn) : TabConn :=
  { st with connectionState := ConnState.connecting }

/-- Handler `websocket.onopen`: `setConnectionState('connected')` and
`reconnectAttemptsRef.current = 0`, then the `init` handshake is sent. -/
def handleOpen (st : TabConn) : TabConn :=
  { st with connectionState := ConnState.connected, reconnectAttempts := 0 }

/-- The `session_info` branch of `websocket.onmessage`: adopt the server's
session id when it is truthy and differs from the remembered one.  The retry
counter is not touched here. -/
def handleSessionInfo (st : TabConn) (msgSessionId : Option String) :
    TabConn :=
  if jsTruthyStr msgSessionId && !(msgSessionId == st.tmuxSessionId) then
    { st with tmuxSessionId := msgSessionId }
  else
    st

/-- Model of `attemptReconnect`: terminal error once the counter has reached the
bound, otherwise increment the counter and arm a flat
`reconnectDelay` timer. -/
def attemptReconnect (st : TabConn) : TabConn :=
  if maxReconnectAttempts ≤ st.reconnectAttempts then
    { st with connectionState := ConnState.errorState }
  else
    { st with
      connectionState := ConnState.reconnecting
      reconnectAttempts := st.reconnectAttempts + 1
      scheduledDelays := st.scheduledDelays ++ [reconnectDelay] }

/-- Handler `websocket.onclose` for an abrupt closure (code ≠ 1000, not an
intentional disconnect): `setConnectionState('disconnected')` then
`attemptReconnect`. -/
def handleAbruptClose (st : TabConn) : TabConn :=
  attemptReconnect { st with connectionState := ConnState.disconnected }

/-- One connection attempt: `connectWebSocket` followed by either the open
handler (`opened = true`) or an abrupt closure (`opened = false`). -/
def stepAttempt (st : TabConn) (opened : Bool) : TabConn :=
  if opened then handleOpen (connectStart st)
  else handleAbruptClose (connectStart st)

/-- Run the controller over a sequence of connection-attempt outcomes. -/
def runAttempts (st : TabConn) (outcomes : List Bool) : TabConn :=
  outcomes.foldl stepAttempt st

/-! ## Client: handleTabClose (SshTabManager.tsx) -/

/-- JavaScript `index > 0 ? index - 1 : 0` — the adjacent-tab choice of
`handleTabClose` ("prefer previous tab, fallback to next"). -/
def closeNewIndex (index : Int) : Int :=
  if 0 < index then index - 1 else 0

/-- Model of `handleTabClose(sessionId)` over the manager state
`(sessions, activeSessionId)`.  When the last tab is closed a fresh
`createSession('Terminal 1')` replaces it (`fresh` carries the generated id
and timestamp); otherwise the named session is filtered out and, when it was
the active one, the previous tab (or the first, for index 0) becomes
active. -/
def handleTabClose (sessions : List SshSession)
    (activeSessionId : Option String) (sessionId : String)
    (fresh : SshSession) : List SshSession × Option String :=
  if sessions.length == 1 then
    ([fresh], fresh.id)
  else
    let index : Int :=
      match sessions.findIdx? (fun s => s.id == some sessionId) with
      | some i => (i : Int)
      | none => -1
    let newSessions := sessions.filter (fun s => !(s.id == some sessionId))
    let newActive :=
      if activeSessionId == some sessionId then
        match newSessions.get? (closeNewIndex index).toNat with
        | some s => s.id
        | none => none
      else
        activeSessionId
    (newSessions, newActive)

/-! ## Specification-side definitions (for refinement comparisons)

These two definitions follow the words of the specification, to be compared
with `getNextTerminalName` above; they are not translations of the source. -/

/-- The naming rule exactly as the specification's sentence states it: the
result is `"<pre> (max(N) + 1)"` over ALL existing names matching
`"<pre> <N>"` (no restriction to records of the requested connection kind),
with the maximum taken as `0` when no name matches. -/
def claimNextName (existingSessions : List SshSession)
    (connectionType : ConnectionType) : String :=
  let pre := match connectionType with
    | ConnectionType.localKind => "Terminal"
    | ConnectionType.remoteKind => "Remote"
  let matched := existingSessions.filterMap
    (fun s => matchNameNumber pre (s.name.getD ""))
  pre ++ " " ++ toString (jsMathMax matched + 1)

/-- The naming rule amended to quantify only over the names of records of the
requested connection kind (the restriction the source applies): the result is
`"<pre> (max(N) + 1)"` over those names matching `"<pre> <N>"`, with the
maximum taken as `0` when none matches. -/
def claimNextNameSameKind (existingSessions : List SshSession)
    (connectionType : ConnectionType) : String :=
  let pre := match connectionType with
    | ConnectionType.localKind => "Terminal"
    | ConnectionType.remoteKind => "Remote"
  let matched := (existingSessions.filter
      (fun s => s.connectionType == some connectionType)).filterMap
    (fun s => matchNameNumber pre (s.name.getD ""))
  pre ++ " " ++ toString (jsMathMax matched + 1)

/-! ## Concrete inputs used by the theorems below -/

/-- A remote-connection record that still carries both secret fields. -/
def c1RemoteInfo : RemoteConnectionInfo :=
  { host := "example.com"
    port := 22
    username := "alice"
    authMethod := "password"
    password := some "hunter2"
    privateKey := none
    passphrase := some "pp" }

/-- A remote session whose `remoteInfo` carries the secrets. -/
def c1Session : SshSession :=
  { id := some "ssh-r1"
    name := some "Remote 1"
    tmuxSessionId := some "ssh-r1"
    createdAt := some "2026-01-01T00:00:00.000Z"
    lastAccessedAt := some "2026-01-01T00:00:00.000Z"
    isActive := some false
    connectionType := some ConnectionType.remoteKind
    remoteInfo := some c1RemoteInfo }

/-- A store holding `c1Session`; input of the C1 failing run. -/
def c1Store : SshSessionStore :=
  { version := some 1
    activeSessionId := some "ssh-r1"
    sessions := some [c1Session] }

/-- A store whose `activeSessionId` is the empty string. -/
def c5Store : SshSessionStore :=
  { version := some 1, activeSessionId := some "", sessions := some [] }

/-- A well-formed store with a truthy active id (C5 witness input). -/
def c5GoodStore : SshSessionStore :=
  { version := some 1
    activeSessionId := some "ssh-w"
    sessions := some
      [{ id := some "ssh-w"
         name := some "Terminal 1"
         tmuxSessionId := some "ssh-w"
         createdAt := some "t"
         lastAccessedAt := some "t"
         isActive := some true
         connectionType := none
         remoteInfo := none }] }

/-- A local session with the given name (and id). -/
def namedLocal (i nm : String) : SshSession :=
  { id := some i
    name := some nm
    tmuxSessionId := some i
    createdAt := some "t"
    lastAccessedAt := some "t"
    isActive := some false
    connectionType := some ConnectionType.localKind
    remoteInfo := none }

/-- A remote-kind session named "Terminal 2" (C6 counterexample input). -/
def c6RemoteNamed : SshSession :=
  { namedLocal "r1" "Terminal 2" with
    connectionType := some ConnectionType.remoteKind }

/-- A request carrying both a password and a private-key path, with
`authMethod = 'password'` (C7 counterexample input). -/
def c7Info : RemoteConnectionInfo :=
  { host := "example.com"
    port := 22
    username := "alice"
    authMethod := "password"
    password := some "pw"
    privateKey := some "/home/alice/.ssh/id_rsa"
    passphrase := none }

/-- A filesystem model on which every private-key read succeeds. -/
def c7ReadKey : String → Option String := fun _ => some "KEYDATA"

/-- A raw store carrying an unknown future version. -/
def c8FutureStore : SshSessionStore :=
  { version := some 7
    activeSessionId := some "x"
    sessions := some [namedLocal "a" "Terminal 1"] }

/-- A record whose timestamp does not parse (C9 witness input). -/
def c9BadSession : SshSession :=
  { namedLocal "b1" "Terminal 1" with lastAccessedAt := some "not-a-date" }

/-- A date parser that rejects "not-a-date" and reads anything else as
epoch 0 (C9 witness input). -/
def c9ParseDate : Option String → Option Int :=
  fun s => if s == some "not-a-date" then none else some 0

/-- The replacement tab built by `handleTabClose` for the last-tab case:
`createSession('Terminal 1')` (defaults: local kind, no remote info), with
the generated id and timestamp as parameters. -/
def freshTerminal (fid tnow : String) : SshSession :=
  createSession "Terminal 1" ConnectionType.localKind none fid tnow

/-- A controller state mid-retry, before any handshake response: three
retries consumed, transport just opened (C3 counterexample input). -/
def c3PreHandshake : TabConn :=
  { connectionState := ConnState.connecting
    reconnectAttempts := 3
    scheduledDelays := [2000, 2000, 2000]
    tmuxSessionId := some "ssh-x" }

/-! # Theorems -/

/-- C1: the sanitisation step of `saveSessionStore` is the identity — the
rest-destructuring strips nothing — so the serialized value of `c1Store`
still contains the `password` and `passphrase` fields, contradicting the
claim (and the code's own comments) that the secret fields are removed
before persistence. -/
theorem C1_sanitize_keeps_secrets :
    sanitizeStore c1Store = c1Store
      ∧ storeHasSecret (sanitizeStore c1Store) = true
      ∧ ((sanitizeStore c1Store).sessions.getD []).any
          (fun s => (s.remoteInfo.getD c1RemoteInfo).password == some "hunter2")
        = true := by
  refine ⟨by decide, by decide, by decide⟩

/-- C2 counterexample: after exactly 5 consecutive abrupt closures the
controller is NOT in the terminal error state — it is `reconnecting` and has
armed a fifth retry timer — refuting the claim that 5 consecutive abrupt
closures put the controller in a terminal error state with no further
connection attempts scheduled. -/
theorem C2_counterexample :
    (runAttempts (initialTabConn (some "ssh-a")) (List.replicate 5 false)).connectionState
        ≠ ConnState.errorState
      ∧ (runAttempts (initialTabConn (some "ssh-a")) (List.replicate 5 false)).connectionState
        = ConnState.reconnecting
      ∧ (runAttempts (initialTabConn (some "ssh-a")) (List.replicate 5 false)).scheduledDelays
        = List.replicate 5 2000 := by
  refine ⟨by decide, by decide, by decide⟩

/-- C2 (amended): with bound 5 and fixed delay 2000 ms, a transport that
closes abruptly 4 times and then opens leaves the controller `connected`
after exactly 4 retries, each armed with the same flat 2-second delay, with
the retry counter reset to 0; after 6 consecutive abrupt closures (the five
retries all consumed and the fifth retry's connection also lost) the
controller is in the terminal error state having armed exactly 5 retries —
after only 5 closures a fifth retry is still scheduled. -/
theorem C2_reconnect_behavior :
    ((runAttempts (initialTabConn (some "ssh-a")) [false, false, false, false, true]).connectionState
        = ConnState.connected
      ∧ (runAttempts (initialTabConn (some "ssh-a")) [false, false, false, false, true]).scheduledDelays
        = List.replicate 4 2000
      ∧ (runAttempts (initialTabConn (some "ssh-a")) [false, false, false, false, true]).reconnectAttempts
        = 0)
    ∧ ((runAttempts (initialTabConn (some "ssh-a")) (List.replicate 6 false)).connectionState
        = ConnState.errorState
      ∧ (runAttempts (initialTabConn (some "ssh-a")) (List.replicate 6 false)).scheduledDelays
        = List.replicate 5 2000) := by
  refine ⟨⟨by decide, by decide, by decide⟩, by decide, by decide⟩

/-- C3 counterexample: from a mid-retry state with 3 attempts consumed, the
transport-open handler alone (no `session_info` has been received) resets
the retry counter to 0, refuting the claim that the counter is never reset
before the server's `session_info` response. -/
theorem C3_counterexample :
    c3PreHandshake.reconnectAttempts = 3
      ∧ (handleOpen c3PreHandshake).reconnectAttempts = 0 := by
  refine ⟨rfl, rfl⟩

/-- C3 (amended): the retry counter is reset to zero as soon as the
transport opens — inside the open handler, before any `session_info`
message — and the `session_info` handler itself never modifies the
counter. -/
theorem C3_counter_reset_on_open :
    (∀ st : TabConn, (handleOpen st).reconnectAttempts = 0)
      ∧ (∀ (st : TabConn) (msgSessionId : Option String),
          (handleSessionInfo st msgSessionId).reconnectAttempts
            = st.reconnectAttempts) := by
  constructor
  · intro st
    rfl
  · intro st msgSessionId
    unfold handleSessionInfo
    split
    · rfl
    · rfl

/-- C4: with the multiplexer available, requesting a non-empty session id
that names a live tmux session attaches (`isNew = false`, `resolvedId` equal
to the requested id, `tmux attach-session` spawned); requesting an id with
no live session creates (`isNew = true`, and the requested id is kept as the
resolved id).  tmux session names are non-empty, whence the `rid ≠ ""`
hypothesis. -/
theorem C4_attach_or_create (liveSessions : List String) (rid freshId : String)
    (hrid : rid ≠ "") :
    (tmuxSessionExists liveSessions rid = true →
        initializeLocalPty true liveSessions (some rid) freshId
          = { resolvedId := rid, isNew := false, spawned := PtySpawn.tmuxAttach })
      ∧ (tmuxSessionExists liveSessions rid = false →
        (initializeLocalPty true liveSessions (some rid) freshId).isNew = true
          ∧ (initializeLocalPty true liveSessions (some rid) freshId).resolvedId
            = rid) := by
  have hempty : rid.isEmpty = false := by
    rcases h : rid.isEmpty with _ | _
    · rfl
    · exact absurd ((String.isEmpty_iff rid).mp h) hrid
  constructor
  · intro hlive
    unfold initializeLocalPty jsTruthyStr
    simp [hempty, hlive]
  · intro hdead
    unfold initializeLocalPty jsTruthyStr
    simp [hempty, hdead]

/-- C4 witness: both branches at concrete inputs, with the hypotheses
discharged by computation. -/
theorem C4_witness :
    ("ssh-a" : String) ≠ ""
      ∧ initializeLocalPty true ["ssh-a"] (some "ssh-a") "fresh"
          = { resolvedId := "ssh-a", isNew := false
              spawned := PtySpawn.tmuxAttach }
      ∧ (initializeLocalPty true ["ssh-a"] (some "ssh-b") "fresh").isNew
          = true :=
  ⟨by decide,
   (C4_attach_or_create ["ssh-a"] "ssh-a" "fresh" (by decide)).1 (by decide),
   ((C4_attach_or_create ["ssh-a"] "ssh-b" "fresh" (by decide)).2
       (by decide)).1⟩

/-- C5 counterexample: on a store whose `activeSessionId` is the empty
string (falsy in JavaScript, so the dangling-reference check is skipped),
`validateSessionStore` leaves `activeSessionId = ""`, which is neither null
nor the id of any surviving record — refuting the claim as stated. -/
theorem C5_counterexample :
    (validateSessionStore c5Store).activeSessionId = some ""
      ∧ (validateSessionStore c5Store).activeSessionId ≠ none
      ∧ ((validateSessionStore c5Store).sessions.getD []).all
          (fun s => !(s.id == (validateSessionStore c5Store).activeSessionId))
        = true := by
  refine ⟨by decide, by decide, by decide⟩

/-- C5 (amended): for every store, every surviving record of
`validateSessionStore` has truthy `id`, `name` and `tmuxSessionId` and a
`connectionType` set (defaulted to local), and every *truthy* resulting
`activeSessionId` is the id of some surviving record (a falsy one — null or
the empty string — is passed through). -/
theorem C5_validate_invariants (store : SshSessionStore) :
    (∀ s ∈ (validateSessionStore store).sessions.getD [],
        jsTruthyStr s.id = true ∧ jsTruthyStr s.name = true
          ∧ jsTruthyStr s.tmuxSessionId = true
          ∧ s.connectionType.isSome = true)
      ∧ (jsTruthyStr (validateSessionStore store).activeSessionId = true →
        ∃ s ∈ (validateSessionStore store).sessions.getD [],
          s.id = (validateSessionStore store).activeSessionId) := by
  unfold validateSessionStore
  dsimp only
  constructor
  · intro s hs
    simp only [Option.getD_some] at hs
    rw [List.mem_filterMap] at hs
    obtain ⟨a, _, hfa⟩ := hs
    by_cases hv : sessionFieldsValid a = true
    · rw [if_pos hv] at hfa
      obtain rfl : withDefaultConnectionType a = s := Option.some.inj hfa
      unfold sessionFieldsValid at hv
      simp only [Bool.and_eq_true] at hv
      refine ⟨?_, ?_, ?_, ?_⟩
      · simpa [withDefaultConnectionType] using hv.1.1
      · simpa [withDefaultConnectionType] using hv.1.2
      · simpa [withDefaultConnectionType] using hv.2
      · rcases h : a.connectionType with _ | ct <;>
          simp [withDefaultConnectionType, h]
    · rw [if_neg hv] at hfa
      exact absurd hfa (by simp)
  · intro h
    simp only [Option.getD_some] at h ⊢
    revert h
    split
    · split
      · rename_i hany
        intro _
        rw [List.any_eq_true] at hany
        obtain ⟨s, hs, hbeq⟩ := hany
        exact ⟨s, hs, by simpa using hbeq⟩
      · intro h
        simp [jsTruthyStr] at h
    · rename_i hfalsy
      intro h
      exact absurd h hfalsy

/-- C5 witness: the amended invariant at a concrete store whose active id is
truthy. -/
theorem C5_witness :
    jsTruthyStr (validateSessionStore c5GoodStore).activeSessionId = true
      ∧ ∃ s ∈ (validateSessionStore c5GoodStore).sessions.getD [],
          s.id = (validateSessionStore c5GoodStore).activeSessionId :=
  ⟨by decide, (C5_validate_invariants c5GoodStore).2 (by decide)⟩

/-- The number extracted for a session name: the match-or-zero step of
`getNextTerminalName` is `Option.getD` on `matchNameNumber`. -/
theorem matchOrZero_eq_getD (pre : String) :
    (fun s : SshSession =>
        match matchNameNumber pre (s.name.getD "") with
        | some n => n
        | none => 0)
      = (fun s : SshSession => (matchNameNumber pre (s.name.getD "")).getD 0) := by
  funext s
  rcases matchNameNumber pre (s.name.getD "") with _ | n <;> rfl

/-- Dropping the zero entries (the non-matching names) before taking the
maximum changes nothing: the positive-filtered map and the `filterMap` have
the same `jsMathMax`. -/
theorem jsMathMax_filter_pos (g : SshSession → Option Nat) :
    ∀ l : List SshSession,
      jsMathMax ((l.map (fun a => (g a).getD 0)).filter (fun n => decide (0 < n)))
        = jsMathMax (l.filterMap g)
  | [] => rfl
  | a :: l => by
    rcases hg : g a with _ | n
    · simp only [List.map_cons, List.filterMap_cons, hg, Option.getD_none,
        List.filter_cons]
      simpa using jsMathMax_filter_pos g l
    · rcases Nat.eq_zero_or_pos n with hn | hn
      · subst hn
        simp only [List.map_cons, List.filterMap_cons, hg, Option.getD_some,
          List.filter_cons, jsMathMax, List.foldr_cons]
        simpa [jsMathMax] using jsMathMax_filter_pos g l
      · simp only [List.map_cons, List.filterMap_cons, hg, Option.getD_some,
          List.filter_cons, hn, decide_eq_true_eq, if_pos hn, jsMathMax,
          List.foldr_cons]
        have := jsMathMax_filter_pos g l
        simp only [jsMathMax] at this
        simp [this]

/-- C6 counterexample: a remote-kind record named "Terminal 2" is ignored
when naming a local terminal — `getNextTerminalName` filters by connection
kind first — so the code yields "Terminal 1" where the claim's formula over
all existing matching names (`claimNextName`) demands "Terminal 3". -/
theorem C6_counterexample :
    getNextTerminalName [c6RemoteNamed] ConnectionType.localKind
        = "Terminal 1"
      ∧ claimNextName [c6RemoteNamed] ConnectionType.localKind
        = "Terminal 3"
      ∧ getNextTerminalName [c6RemoteNamed] ConnectionType.localKind
        ≠ claimNextName [c6RemoteNamed] ConnectionType.localKind := by
  refine ⟨by decide, by decide, by decide⟩

/-- C6 (amended): the two concrete examples hold, and in general the result
is `"<pre> (max(N) + 1)"` with the maximum taken over the names *of records
of the requested connection kind* that match `"<pre> <N>"` (0 when none
matches, so the result starts at `"<pre> 1"`; gaps are never filled). -/
theorem C6_next_name :
    getNextTerminalName [] ConnectionType.localKind = "Terminal 1"
      ∧ getNextTerminalName
          [namedLocal "a" "Terminal 1", namedLocal "b" "Terminal 3"]
          ConnectionType.localKind = "Terminal 4"
      ∧ ∀ (l : List SshSession) (ct : ConnectionType),
          getNextTerminalName l ct = claimNextNameSameKind l ct := by
  refine ⟨by decide, by decide, ?_⟩
  intro l ct
  unfold getNextTerminalName claimNextNameSameKind
  dsimp only
  rw [matchOrZero_eq_getD]
  generalize (match ct with
    | ConnectionType.localKind => "Terminal"
    | ConnectionType.remoteKind => "Remote") = pre
  have hmax := jsMathMax_filter_pos
    (fun s => matchNameNumber pre (s.name.getD ""))
    (l.filter fun s => s.connectionType == some ct)
  rcases hn :
      ((l.filter fun s => s.connectionType == some ct).map
          fun s => (matchNameNumber pre (s.name.getD "")).getD 0).filter
        (fun n => decide (0 < n)) with _ | ⟨n, rest⟩
  · rw [hn] at hmax
    rw [hn, ← hmax, String.append_assoc]
    exact congrArg (fun t => pre ++ t)
      (show (" 1" : String)
          = " " ++ toString (jsMathMax ([] : List Nat) + 1) by decide)
  · rw [hn] at hmax
    rw [hn, ← hmax]

/-- C7 counterexample: a request carrying BOTH a password and a private-key
path (with `authMethod = 'password'`) is not rejected — the password is
used — refuting the claim that the presence of both credentials is treated
as a configuration error. -/
theorem C7_counterexample :
    c7Info.password.isSome = true
      ∧ c7Info.privateKey.isSome = true
      ∧ buildAuthConfig c7ReadKey c7Info
          = Except.ok (AuthConfig.usePassword "pw")
      ∧ buildAuthConfig c7ReadKey c7Info
          ≠ Except.error "Invalid authentication method or missing credentials" := by
  refine ⟨rfl, rfl, rfl, ?_⟩
  intro h
  rw [show buildAuthConfig c7ReadKey c7Info
      = Except.ok (AuthConfig.usePassword "pw") from rfl] at h
  exact Except.noConfusion h

/-- C7 (amended): the authentication method is selected by the declared
`authMethod` field, with no fallback: a request with neither credential is
rejected; a request whose declared method's credential is missing is
rejected even when the other credential is present; an unrecognised
`authMethod` is rejected; a password request uses exactly the password; a
private-key request uses exactly the key file (with the optional
passphrase), never the password. -/
theorem C7_auth_selection (readKey : String → Option String)
    (info : RemoteConnectionInfo) :
    (jsTruthyStr info.password = false → jsTruthyStr info.privateKey = false →
        buildAuthConfig readKey info
          = Except.error "Invalid authentication method or missing credentials")
      ∧ (info.authMethod = "password" → jsTruthyStr info.password = false →
        buildAuthConfig readKey info
          = Except.error "Invalid authentication method or missing credentials")
      ∧ (info.authMethod = "privateKey" → jsTruthyStr info.privateKey = false →
        buildAuthConfig readKey info
          = Except.error "Invalid authentication method or missing credentials")
      ∧ (info.authMethod ≠ "password" → info.authMethod ≠ "privateKey" →
        buildAuthConfig readKey info
          = Except.error "Invalid authentication method or missing credentials")
      ∧ (info.authMethod = "password" → jsTruthyStr info.password = true →
        buildAuthConfig readKey info
          = Except.ok (AuthConfig.usePassword (info.password.getD "")))
      ∧ (info.authMethod = "privateKey" → jsTruthyStr info.privateKey = true →
        buildAuthConfig readKey info
          = match readKey (info.privateKey.getD "") with
            | some keyData =>
              Except.ok (AuthConfig.useKey keyData
                (if jsTruthyStr info.passphrase then info.passphrase else none))
            | none => Except.error "Failed to read private key file") := by
  refine ⟨?_, ?_, ?_, ?_, ?_, ?_⟩
  · intro hp hk
    simp [buildAuthConfig, hp, hk]
  · intro hm hp
    simp [buildAuthConfig, hm, hp]
  · intro hm hk
    have hm2 : info.authMethod ≠ "password" := by
      rw [hm]
      decide
    simp [buildAuthConfig, hm, hm2, hk]
  · intro h1 h2
    simp [buildAuthConfig, h1, h2]
  · intro hm hp
    simp [buildAuthConfig, hm, hp]
  · intro hm hk
    have hm2 : info.authMethod ≠ "password" := by
      rw [hm]
      decide
    simp [buildAuthConfig, hm, hm2, hk]

/-- C7 witness: password selection at the concrete both-credentials
request. -/
theorem C7_witness :
    c7Info.authMethod = "password"
      ∧ jsTruthyStr c7Info.password = true
      ∧ buildAuthConfig c7ReadKey c7Info
          = Except.ok (AuthConfig.usePassword (c7Info.password.getD "")) :=
  ⟨rfl, by decide,
   (C7_auth_selection c7ReadKey c7Info).2.2.2.2.1 rfl (by decide)⟩

/-- The `connectionType` default is idempotent. -/
theorem withDefault_idem (s : SshSession) :
    withDefaultConnectionType (withDefaultConnectionType s)
      = withDefaultConnectionType s := by
  rcases h : s.connectionType with _ | ct <;>
    simp [withDefaultConnectionType, h]

/-- Mapping the `connectionType` default twice equals mapping it once. -/
theorem map_withDefault_idem (l : List SshSession) :
    (l.map withDefaultConnectionType).map withDefaultConnectionType
      = l.map withDefaultConnectionType := by
  induction l with
  | nil => rfl
  | cons a l ih => simp [withDefault_idem, ih]

/-- C8: `migrateSessionStore` is idempotent on every raw store — version 0,
the current version, and unknown future versions alike — and a store whose
(defaulted) version is neither 0 nor the current version is passed through
completely unchanged (the code never throws: every branch returns a
store). -/
theorem C8_migrate_idempotent (x : SshSessionStore) :
    migrateSessionStore (migrateSessionStore x) = migrateSessionStore x
      ∧ (jsOrInt x.version 0 ≠ 0 → jsOrInt x.version 0 ≠ CURRENT_VERSION →
          migrateSessionStore x = x) := by
  constructor
  · by_cases h0 : jsOrInt x.version 0 = 0
    · have h1 : migrateSessionStore x
          = { version := some CURRENT_VERSION
              activeSessionId := jsOrNullStr x.activeSessionId
              sessions :=
                some ((x.sessions.getD []).map withDefaultConnectionType) } := by
        unfold migrateSessionStore
        simp [h0]
      rw [h1]
      unfold migrateSessionStore
      simp [jsOrInt, CURRENT_VERSION, map_withDefault_idem, withDefault_idem]
    · by_cases h1 : jsOrInt x.version 0 = CURRENT_VERSION
      · have h2 : migrateSessionStore x
            = { x with
                sessions :=
                  some ((x.sessions.getD []).map withDefaultConnectionType) } := by
          unfold migrateSessionStore
          simp [h0, h1, CURRENT_VERSION]
        rw [h2]
        unfold migrateSessionStore
        have hv : x.version = some CURRENT_VERSION := by
          rcases hx : x.version with _ | v
          · rw [hx] at h1
            exact absurd h1 (by decide)
          · rw [hx] at h1
            by_cases hz : v = 0
            · rw [hx] at h0
              subst hz
              exact absurd (by simp [jsOrInt]) h0
            · have hval : jsOrInt (some v) 0 = v := by
                simp [jsOrInt, hz]
              rw [hval] at h1
              rw [h1]
        simp [hv, jsOrInt, CURRENT_VERSION, map_withDefault_idem,
          withDefault_idem]
      · have h2 : migrateSessionStore x = x := by
          unfold migrateSessionStore
          simp [h0, h1]
        rw [h2, h2]
  · intro h0 h1
    unfold migrateSessionStore
    simp [h0, h1]

/-- C8 witness: the unknown-future-version branch at a concrete store with
version 7 (pass-through, hence idempotent as well). -/
theorem C8_witness :
    jsOrInt c8FutureStore.version 0 ≠ 0
      ∧ jsOrInt c8FutureStore.version 0 ≠ CURRENT_VERSION
      ∧ migrateSessionStore c8FutureStore = c8FutureStore :=
  ⟨by decide, by decide,
   (C8_migrate_idempotent c8FutureStore).2 (by decide) (by decide)⟩

/-- C9: `cleanupOldSessions` never removes a record whose `lastAccessedAt`
fails to parse — every such record is kept verbatim — and every record that
is dropped has a timestamp that parsed to an age strictly exceeding the
threshold; the output contains only records of the input. -/
theorem C9_cleanup_keeps_unparseable (parseDate : Option String → Option Int)
    (now maxAgeDays : Int) (sessions : List SshSession) :
    (∀ s ∈ sessions, parseDate s.lastAccessedAt = none →
        s ∈ cleanupOldSessions parseDate now sessions maxAgeDays)
      ∧ (∀ s ∈ sessions,
          s ∉ cleanupOldSessions parseDate now sessions maxAgeDays →
          ∃ t, parseDate s.lastAccessedAt = some t
            ∧ maxAgeDays * 24 * 60 * 60 * 1000 < now - t)
      ∧ (∀ s ∈ cleanupOldSessions parseDate now sessions maxAgeDays,
          s ∈ sessions) := by
  unfold cleanupOldSessions
  dsimp only
  refine ⟨?_, ?_, ?_⟩
  · intro s hs hp
    rw [List.mem_filter]
    refine ⟨hs, ?_⟩
    rw [hp]
  · intro s hs hmem
    have hp : (match parseDate s.lastAccessedAt with
        | none => true
        | some lastAccessed =>
          !(now - lastAccessed > maxAgeDays * 24 * 60 * 60 * 1000)) = false := by
      rcases h : (match parseDate s.lastAccessedAt with
          | none => true
          | some lastAccessed =>
            !(now - lastAccessed > maxAgeDays * 24 * 60 * 60 * 1000)) with _ | _
      · exact h
      · exact absurd (List.mem_filter.mpr ⟨hs, h⟩) hmem
    rcases hpd : parseDate s.lastAccessedAt with _ | t
    · rw [hpd] at hp
      simp at hp
    · rw [hpd] at hp
      refine ⟨t, rfl, ?_⟩
      simpa using hp
  · intro s hs
    exact (List.mem_filter.mp hs).1

/-- C9 witness: a record with an unparseable timestamp survives a concrete
cleanup run. -/
theorem C9_witness :
    c9ParseDate c9BadSession.lastAccessedAt = none
      ∧ c9BadSession
          ∈ cleanupOldSessions c9ParseDate 1000000 [c9BadSession] 3 :=
  ⟨by decide,
   (C9_cleanup_keeps_unparseable c9ParseDate 1000000 3 [c9BadSession]).1
     c9BadSession (by decide) (by decide)⟩

/-- Computing `findIdx?` over a list split around the first satisfying element returns
the length of the failing front segment (accumulator version). -/
theorem findIdxMiddle {α : Type} (p : α → Bool) :
    ∀ (t : List α) (x : α) (d : List α) (i : Nat),
      (∀ y ∈ t, p y = false) → p x = true →
      List.findIdx? p (t ++ x :: d) i = some (i + t.length)
  | [], x, d, i, _, hx => by
    simp [List.findIdx?_cons, hx]
  | a :: t, x, d, i, ht, hx => by
    have ha : p a = false := ht a (List.mem_cons_self a t)
    simp only [List.cons_append, List.findIdx?_cons, ha, Bool.false_eq_true,
      if_false]
    rw [findIdxMiddle p t x d (i + 1)
      (fun y hy => ht y (List.mem_cons_of_mem a hy)) hx]
    congr 1
    simp
    omega

/-- C10: closing a tab never leaves the list empty.  On a one-element list
the fresh `createSession('Terminal 1')` record replaces it and becomes
active.  On a longer list (unique ids, validated records, the closed id and
the active id both present): exactly the named session is removed, the
resulting active id is the id of some remaining session, a non-closed active
id is untouched, and when the active tab itself is closed the active id
moves to the session previously at `index - 1` (or, for `index = 0`, to the
one previously at index 1). -/
theorem C10_tab_close (sessions : List SshSession) (a cid fid tnow : String)
    (hvalid : ∀ s ∈ sessions, s.id.isSome = true)
    (hnodup : (sessions.map SshSession.id).Nodup)
    (hcid : some cid ∈ sessions.map SshSession.id)
    (hact : some a ∈ sessions.map SshSession.id) :
    (sessions.length = 1 →
        handleTabClose sessions (some a) cid (freshTerminal fid tnow)
          = ([freshTerminal fid tnow], some fid))
      ∧ (1 < sessions.length →
        (handleTabClose sessions (some a) cid (freshTerminal fid tnow)).1.length + 1
            = sessions.length
          ∧ (∀ s,
              s ∈ (handleTabClose sessions (some a) cid (freshTerminal fid tnow)).1
              ↔ s ∈ sessions ∧ s.id ≠ some cid)
          ∧ (∃ b,
              (handleTabClose sessions (some a) cid (freshTerminal fid tnow)).2
                  = some b
                ∧ ∃ s ∈ (handleTabClose sessions (some a) cid
                      (freshTerminal fid tnow)).1,
                    s.id = some b)
          ∧ (a ≠ cid →
              (handleTabClose sessions (some a) cid (freshTerminal fid tnow)).2
                = some a)
          ∧ (a = cid →
              ∀ i, sessions.findIdx? (fun s => s.id == some cid) = some i →
              (0 < i →
                (handleTabClose sessions (some a) cid (freshTerminal fid tnow)).2
                  = (sessions.get? (i - 1)).bind SshSession.id)
                ∧ (i = 0 →
                  (handleTabClose sessions (some a) cid
                      (freshTerminal fid tnow)).2
                    = (sessions.get? 1).bind SshSession.id))) := by
  obtain ⟨x, hxmem, hxid⟩ : ∃ x ∈ sessions, x.id = some cid := by
    simpa [List.mem_map] using hcid
  obtain ⟨t, d, rfl⟩ := List.append_of_mem hxmem
  rw [List.map_append, List.map_cons] at hnodup
  have hmid := List.nodup_middle.mp hnodup
  rw [List.nodup_cons] at hmid
  have hxnotmem := hmid.1
  have hne_t : ∀ y ∈ t, y.id ≠ some cid := by
    intro y hy heq
    apply hxnotmem
    apply List.mem_append_left
    rw [hxid, ← heq]
    exact List.mem_map_of_mem SshSession.id hy
  have hne_d : ∀ y ∈ d, y.id ≠ some cid := by
    intro y hy heq
    apply hxnotmem
    apply List.mem_append_right
    rw [hxid, ← heq]
    exact List.mem_map_of_mem SshSession.id hy
  have hfilter : (t ++ x :: d).filter (fun s => !(s.id == some cid)) = t ++ d := by
    rw [List.filter_append, List.filter_cons]
    have h1 : t.filter (fun s => !(s.id == some cid)) = t :=
      List.filter_eq_self.mpr (fun y hy => by simp [hne_t y hy])
    have h2 : d.filter (fun s => !(s.id == some cid)) = d :=
      List.filter_eq_self.mpr (fun y hy => by simp [hne_d y hy])
    simp [h1, h2, hxid]
  have hfind := findIdxMiddle (fun s => s.id == some cid) t x d 0
    (fun y hy => by simp [hne_t y hy]) (by simp [hxid])
  rw [Nat.zero_add] at hfind
  constructor
  · intro h1
    unfold handleTabClose
    rw [if_pos (by simp [h1])]
    rfl
  · intro h2
    have hcond : ((t ++ x :: d).length == 1) = false := by
      rw [beq_eq_false_iff_ne]
      simp only [List.length_append, List.length_cons] at h2 ⊢
      omega
    have hr : handleTabClose (t ++ x :: d) (some a) cid (freshTerminal fid tnow)
        = (t ++ d,
            if (some a == some cid) = true then
              match (t ++ d).get? (closeNewIndex ((t.length : Int))).toNat with
              | some s => s.id
              | none => none
            else some a) := by
      unfold handleTabClose
      rw [hcond]
      simp only [Bool.false_eq_true, if_false, hfind, hfilter]
    rw [hr]
    refine ⟨?_, ?_, ?_, ?_, ?_⟩
    · simp only [List.length_append, List.length_cons]
      omega
    · intro s
      constructor
      · intro hs
        have : s ∈ (t ++ x :: d).filter (fun s => !(s.id == some cid)) := by
          rw [hfilter]
          exact hs
        rcases List.mem_filter.mp this with ⟨hmem2, hp⟩
        refine ⟨hmem2, ?_⟩
        simpa using hp
      · intro hs
        have : s ∈ (t ++ x :: d).filter (fun s => !(s.id == some cid)) :=
          List.mem_filter.mpr ⟨hs.1, by simp [hs.2]⟩
        rw [hfilter] at this
        exact this
    · by_cases hac : a = cid
      · subst hac
        simp only [beq_self_eq_true, if_pos]
        rcases t with _ | ⟨t0, t1⟩
        · rcases d with _ | ⟨y, d2⟩
          · simp at h2
          · have hy : y.id.isSome = true :=
              hvalid y (by simp)
            rcases Option.isSome_iff_exists.mp hy with ⟨b, hb⟩
            refine ⟨b, ?_, ⟨y, by simp, hb⟩⟩
            simp [closeNewIndex, hb]
        · have hpos : 0 < (t0 :: t1).length := by simp
          have htn : (closeNewIndex (((t0 :: t1).length : Int))).toNat
              = (t0 :: t1).length - 1 := by
            unfold closeNewIndex
            rw [if_pos (by exact_mod_cast hpos)]
            omega
          have hget : ((t0 :: t1) ++ d).get? ((t0 :: t1).length - 1)
              = (t0 :: t1).get? ((t0 :: t1).length - 1) :=
            List.get?_append (by omega)
          have hlt : (t0 :: t1).length - 1 < (t0 :: t1).length := by omega
          have hget2 := List.get?_eq_get hlt
          set e := (t0 :: t1).get ⟨(t0 :: t1).length - 1, hlt⟩ with he
          have hemem : e ∈ (t0 :: t1) := List.get_mem _ _ _
          have hei : e.id.isSome = true :=
            hvalid e (List.mem_append_left _ hemem)
          rcases Option.isSome_iff_exists.mp hei with ⟨b, hb⟩
          refine ⟨b, ?_, ⟨e, List.mem_append_left _ hemem, hb⟩⟩
          rw [htn, hget, hget2]
          exact hb
      · have hbeq : (some a == some cid) = false := by
          simp [hac]
        rw [hbeq]
        simp only [Bool.false_eq_true, if_false]
        obtain ⟨s, hsmem, hsid⟩ := List.mem_map.mp hact
        have hsne : s.id ≠ some cid := by
          rw [hsid]
          intro hcontra
          exact hac (by injection hcontra)
        have : s ∈ (t ++ x :: d).filter (fun s => !(s.id == some cid)) :=
          List.mem_filter.mpr ⟨hsmem, by simp [hsne]⟩
        rw [hfilter] at this
        exact ⟨a, rfl, ⟨s, this, hsid⟩⟩
    · intro hac
      have hbeq : (some a == some cid) = false := by
        simp [hac]
      rw [hbeq]
      simp
    · intro hac i hi
      subst hac
      rw [hfind] at hi
      have hit : i = t.length := by
        injection hi with h
        omega
      subst hit
      simp only [beq_self_eq_true, if_pos]
      constructor
      · intro hpos
        have htn : (closeNewIndex ((t.length : Int))).toNat = t.length - 1 := by
          unfold closeNewIndex
          rw [if_pos (by exact_mod_cast hpos)]
          omega
        have hget : (t ++ d).get? (t.length - 1) = t.get? (t.length - 1) :=
          List.get?_append (by omega)
        have hget3 : (t ++ x :: d).get? (t.length - 1) = t.get? (t.length - 1) :=
          List.get?_append (by omega)
        rw [htn, hget, hget3]
        rcases hg : t.get? (t.length - 1) with _ | e
        · rfl
        · rfl
      · intro h0
        have ht0 : t = [] := List.length_eq_zero.mp h0
        subst ht0
        show (match d.get? 0 with
            | some s => s.id
            | none => none) = (d.get? 0).bind SshSession.id
        cases d.get? 0 <;> rfl

/-- C10 witness: closing the middle (active) tab of a concrete three-tab
list, with every hypothesis discharged by computation. -/
theorem C10_witness :
    1 < ([namedLocal "a" "A", namedLocal "b" "B",
          namedLocal "c" "C"] : List SshSession).length
      ∧ (handleTabClose
            [namedLocal "a" "A", namedLocal "b" "B", namedLocal "c" "C"]
            (some "b") "b" (freshTerminal "f" "t")).1.length + 1
          = ([namedLocal "a" "A", namedLocal "b" "B",
              namedLocal "c" "C"] : List SshSession).length :=
  ⟨by decide,
   ((C10_tab_close
        [namedLocal "a" "A", namedLocal "b" "B", namedLocal "c" "C"]
        "b" "b" "f" "t" (by decide) (by decide) (by decide) (by decide)).2
      (by decide)).1⟩

end SshWeb
